import Mathlib

/-!
Verification development for the QScanner Lambda handler
(`src/scanner-lambda/lambda_function.py`).

The handler is embedded shallowly: JSON-like Python values become the
inductive `PyVal`, exceptions become an explicit error type threaded via
`Except`, and the external collaborators (Secrets Manager, the Lambda
platform API, the subprocess running the scanner binary, S3 and SNS) become
oracle parameters of the handler function.  Response bodies are kept as
their dictionaries rather than as serialized JSON strings.

Modelling convention for `PyVal` lookups: the events the handler consumes
are JSON objects at every position the code subscripts; key membership on a
non-object value is modelled as `false` and `dict.get` on a non-object
yields `None` (Python would raise there, which the handler's blanket
`except Exception` also maps to a 500 response, so the observable response
class is unchanged).
-/

namespace QualysLambda

/-- A Python/JSON value as manipulated by the handler. -/
inductive PyVal where
  | none
  | bool (b : Bool)
  | int (n : Int)
  | str (s : String)
  | list (xs : List PyVal)
  | obj (fields : List (String × PyVal))

/-- Python truthiness (`if v:`), restricted to the value shapes above. -/
def PyVal.truthy : PyVal → Bool
  | .none => false
  | .bool b => b
  | .int n => n != 0
  | .str s => s != ""
  | .list xs => !xs.isEmpty
  | .obj fs => !fs.isEmpty

/-- Key lookup in an object; `Option.none` for absent keys or non-objects. -/
def PyVal.lookupKey : PyVal → String → Option PyVal
  | .obj fs, k => (fs.find? fun kv => kv.1 == k).map fun kv => kv.2
  | _, _ => Option.none

/-- Python `k in d`. -/
def PyVal.hasKey (v : PyVal) (k : String) : Bool :=
  (v.lookupKey k).isSome

/-- Python `d[k]` at a position where the code has established the key. -/
def PyVal.index (v : PyVal) (k : String) : PyVal :=
  (v.lookupKey k).getD .none

/-- Python `d.get(k, default)`. -/
def PyVal.getDefault (v : PyVal) (k : String) (d : PyVal) : PyVal :=
  (v.lookupKey k).getD d

/-- Python `d.get(k)`. -/
def PyVal.get (v : PyVal) (k : String) : PyVal :=
  v.getDefault k .none

/-- Whether the value is a dict (`isinstance(v, dict)`). -/
def PyVal.isObj : PyVal → Bool
  | .obj _ => true
  | _ => false

mutual

/-- Python `repr` of a value (used by `str` on non-string values). -/
def pyRepr : PyVal → String
  | .none => "None"
  | .bool true => "True"
  | .bool false => "False"
  | .int n => toString n
  | .str s => "\x27" ++ s ++ "\x27"
  | .list xs => "[" ++ pyReprList xs ++ "]"
  | .obj fs => "\x7b" ++ pyReprFields fs ++ "\x7d"

/-- Comma-separated reprs of a list of values. -/
def pyReprList : List PyVal → String
  | [] => ""
  | [x] => pyRepr x
  | x :: y :: xs => pyRepr x ++ ", " ++ pyReprList (y :: xs)

/-- Comma-separated reprs of a dict's entries. -/
def pyReprFields : List (String × PyVal) → String
  | [] => ""
  | [kv] => "\x27" ++ kv.1 ++ "\x27: " ++ pyRepr kv.2
  | kv :: kv2 :: fs => "\x27" ++ kv.1 ++ "\x27: " ++ pyRepr kv.2 ++ ", " ++ pyReprFields (kv2 :: fs)

end

/-- Python `str(v)`, as applied by f-string interpolation. -/
def pyStr : PyVal → String
  | .str s => s
  | v => pyRepr v

/-- The exception classes the handler distinguishes: its own `ScanException`,
`ValueError` raised by event validation, and any other `Exception`. -/
inductive PyErr where
  | scanException (msg : String)
  | valueError (msg : String)
  | otherError (msg : String)
deriving Repr, DecidableEq

/-- Target resolution, `lambda_handler` lines 276-298: extract the function
ARN from the EventBridge event, either directly from
`detail.responseElements.functionArn` (taken whenever `responseElements` is
present and truthy) or reconstructed from
`detail.requestParameters.functionName` plus account and region. -/
def resolveTarget (event : PyVal) : Except PyErr String :=
  if !(event.hasKey "detail") then
    .error (.valueError "Invalid event structure: missing \x27detail\x27 field")
  else
    let detail := event.index "detail"
    let function_arn : Except PyErr PyVal :=
      if detail.hasKey "responseElements" && (detail.index "responseElements").truthy then
        .ok ((detail.index "responseElements").get "functionArn")
      else if detail.hasKey "requestParameters" then
        let function_name := (detail.index "requestParameters").get "functionName"
        if function_name.truthy then
          let account_id := event.getDefault "account"
            ((detail.getDefault "userIdentity" (.obj [])).get "accountId")
          let region := event.getDefault "region" (.str "us-east-1")
          .ok (.str ("arn:aws:lambda:" ++ pyStr region ++ ":" ++ pyStr account_id
            ++ ":function:" ++ pyStr function_name))
        else
          .error (.valueError "Could not extract function name from event")
      else
        .error (.valueError "Could not extract function ARN from event")
    match function_arn with
    | .error e => .error e
    | .ok fa =>
      if !fa.truthy then .error (.valueError "Function ARN is empty")
      else .ok (pyStr fa)

/-- Qualys credentials as validated by `get_qualys_credentials`: the two
mandatory fields plus the optional registry credentials. -/
structure Creds where
  qualys_pod : String
  qualys_access_token : String
  registry_username : Option String
  registry_password : Option String
  registry_token : Option String

/-- The projection of a function's configuration built by
`get_lambda_details` (lines 98-109); `runtime` defaults to `"N/A"` and
`package_type` to `"Zip"` there. -/
structure LambdaDetails where
  function_name : String
  function_arn : String
  runtime : String
  package_type : String
  code_sha256 : Option String
  image_uri : Option String
  last_modified : Option String
  code_size : Option Int
  memory_size : Option Int
  timeout : Option Int

/-- Lift an optional string to a Python value (absent becomes `None`). -/
def optStr : Option String → PyVal
  | some s => .str s
  | Option.none => .none

/-- Lift an optional integer to a Python value (absent becomes `None`). -/
def optInt : Option Int → PyVal
  | some n => .int n
  | Option.none => .none

/-- The dictionary `get_lambda_details` returns. -/
def LambdaDetails.toPy (ld : LambdaDetails) : PyVal :=
  .obj [("function_name", .str ld.function_name),
        ("function_arn", .str ld.function_arn),
        ("runtime", .str ld.runtime),
        ("package_type", .str ld.package_type),
        ("code_sha256", optStr ld.code_sha256),
        ("image_uri", optStr ld.image_uri),
        ("last_modified", optStr ld.last_modified),
        ("code_size", optInt ld.code_size),
        ("memory_size", optInt ld.memory_size),
        ("timeout", optInt ld.timeout)]

/-- `QSCANNER_PATH` (line 30). -/
def QSCANNER_PATH : String := "/opt/qscanner"

/-- Default of the `SCAN_TIMEOUT` environment variable (line 29). -/
def SCAN_TIMEOUT_DEFAULT : Nat := 300

/-- The QScanner command line built in `run_qscanner` (lines 132-138). -/
def buildCmd (creds : Creds) (function_arn : String) : List String :=
  [QSCANNER_PATH,
   "--pod", creds.qualys_pod,
   "--access-token", creds.qualys_access_token,
   "--output-format", "json",
   "lambda", function_arn]

/-- The environment entries `run_qscanner` adds on top of the inherited
environment (lines 140-151). -/
def scannerEnvExtras (creds : Creds) (aws_region : String) : List (String × String) :=
  [("AWS_REGION", aws_region)]
  ++ (match creds.registry_username with
      | some u => [("QSCANNER_REGISTRY_USERNAME", u)]
      | Option.none => [])
  ++ (match creds.registry_password with
      | some p => [("QSCANNER_REGISTRY_PASSWORD", p)]
      | Option.none => [])
  ++ (match creds.registry_token with
      | some t => [("QSCANNER_REGISTRY_TOKEN", t)]
      | Option.none => [])

/-- What the completed subprocess handed back (`subprocess.CompletedProcess`
with captured text streams). -/
structure ProcResult where
  returncode : Int
  stdout : String
  stderr : String

/-- Outcome of `subprocess.run` as observed by `run_qscanner`: a completed
process, a `TimeoutExpired`, or some other raised exception (e.g. a failure
to spawn the binary). -/
inductive ProcOutcome where
  | completed (r : ProcResult)
  | timedOut
  | raised (msg : String)

/-- Behaviour of the scanner binary on this invocation: how long it would
run, how it would exit, and whether spawning it raises. -/
structure ProcBehavior where
  duration : Nat
  returncode : Int
  stdout : String
  stderr : String
  spawnError : Option String

/-- `subprocess.run` with `capture_output=True` and `timeout=timeoutSec`:
raises `TimeoutExpired` when the process outlives the timeout, otherwise
returns the completed process with both streams captured. -/
def runProcess (timeoutSec : Nat) (p : ProcBehavior) : ProcOutcome :=
  match p.spawnError with
  | some m => .raised m
  | Option.none =>
    if p.duration > timeoutSec then .timedOut
    else .completed ⟨p.returncode, p.stdout, p.stderr⟩

/-- The dictionary `run_qscanner` returns on success (lines 184-190). -/
structure ScanRecord where
  success : Bool
  exit_code : Int
  results : PyVal
  stdout : String
  stderr : String

/-- `ScanRecord` as the Python dictionary it embeds. -/
def ScanRecord.toPy (sr : ScanRecord) : PyVal :=
  .obj [("success", .bool sr.success),
        ("exit_code", .int sr.exit_code),
        ("results", sr.results),
        ("stdout", .str sr.stdout),
        ("stderr", .str sr.stderr)]

/-- `run_qscanner` (lines 156-198) after the subprocess call: non-zero exit
raises `ScanException` with the captured stderr, timeout raises
`ScanException` with the timeout message, any other subprocess exception is
re-raised; on zero exit the stdout is parsed as JSON when non-empty, falling
back to a raw-output dictionary when parsing fails. `parseJson` stands for
`json.loads`, returning `Option.none` where it would raise
`JSONDecodeError`. -/
def runQscanner (parseJson : String → Option PyVal) (scanTimeoutSec : Nat)
    (outcome : ProcOutcome) : Except PyErr ScanRecord :=
  match outcome with
  | .raised m => .error (.otherError m)
  | .timedOut =>
    .error (.scanException ("Scan timeout after " ++ toString scanTimeoutSec ++ " seconds"))
  | .completed r =>
    if r.returncode != 0 then
      .error (.scanException ("QScanner failed: " ++ r.stderr))
    else
      let scan_results : PyVal :=
        if r.stdout != "" then
          match parseJson r.stdout with
          | some v => v
          | Option.none => .obj [("raw_output", .str r.stdout), ("stderr", .str r.stderr)]
        else .obj []
      .ok ⟨true, r.returncode, scan_results, r.stdout, r.stderr⟩

/-- `run_qscanner` composed with the subprocess semantics. -/
def runQscannerOn (parseJson : String → Option PyVal) (scanTimeoutSec : Nat)
    (p : ProcBehavior) : Except PyErr ScanRecord :=
  runQscanner parseJson scanTimeoutSec (runProcess scanTimeoutSec p)

/-- Truthiness of an optional environment variable (`if VAR:`). -/
def optTruthy : Option String → Bool
  | some s => s != ""
  | Option.none => false

/-- The result-sink configuration and whether each sink call would raise. -/
structure SinkEnv where
  resultsS3Bucket : Option String
  snsTopicArn : Option String
  s3PutRaises : Bool
  snsPublishRaises : Bool

/-- One `s3.put_object` call as issued by `store_results` (lines 222-228). -/
structure S3Write where
  bucket : String
  key : String
  body : PyVal
  serverSideEncryption : String

/-- One `sns.publish` call as issued by `store_results` (lines 250-254);
the message is kept as its dictionary. -/
structure SnsPublish where
  topicArn : String
  subject : String
  message : List (String × PyVal)

/-- The observable effects of `store_results`. -/
structure SinkEffects where
  s3Writes : List S3Write
  snsPublishes : List SnsPublish

/-- The SNS summary message built in `store_results` (lines 237-248):
base fields, then `vulnerability_summary` is added whenever the scan
record's `results` entry is a dict, defaulting to an empty dict when it has
no `vulnerabilities` key. -/
def snsMessageFor (ld : LambdaDetails) (sr : ScanRecord) (timestamp : String) :
    List (String × PyVal) :=
  let message : List (String × PyVal) :=
    [("function_name", .str ld.function_name),
     ("function_arn", .str ld.function_arn),
     ("scan_timestamp", .str timestamp),
     ("scan_success", .bool sr.success),
     ("image_uri", ld.toPy.getDefault "image_uri" (.str "N/A"))]
  let srp := sr.toPy
  if srp.hasKey "results" && (srp.index "results").isObj then
    message ++ [("vulnerability_summary", (srp.index "results").getDefault "vulnerabilities" (.obj []))]
  else message

/-- `store_results` (lines 201-257): best-effort S3 write and SNS publish,
each in its own try/except that logs and swallows the failure; a raising
sink call simply produces no effect. -/
def storeResults (sink : SinkEnv) (timestamp : String) (ld : LambdaDetails)
    (sr : ScanRecord) : SinkEffects :=
  let full_results : PyVal :=
    .obj [("scan_timestamp", .str timestamp),
          ("lambda_function", ld.toPy),
          ("scan_results", sr.toPy)]
  let s3Writes : List S3Write :=
    if optTruthy sink.resultsS3Bucket then
      if sink.s3PutRaises then []
      else [⟨sink.resultsS3Bucket.getD "",
             "scans/" ++ ld.function_name ++ "/" ++ timestamp ++ ".json",
             full_results, "AES256"⟩]
    else []
  let snsPublishes : List SnsPublish :=
    if optTruthy sink.snsTopicArn then
      if sink.snsPublishRaises then []
      else [⟨sink.snsTopicArn.getD "",
             "QScanner Results: " ++ ld.function_name,
             snsMessageFor ld sr timestamp⟩]
    else []
  ⟨s3Writes, snsPublishes⟩

/-- `aws_region` extraction (line 312): event region, else the ambient
`AWS_REGION` environment variable, else `us-east-1`. -/
def awsRegionOf (event : PyVal) (ambientRegion : Option String) : String :=
  pyStr (event.getDefault "region" (.str (ambientRegion.getD "us-east-1")))

/-- The collaborators of the primary pipeline, as oracles: the outcome of
the credentials fetch, the metadata fetch keyed by the resolved ARN (which
absorbs the optional cross-account role), `json.loads`, the configured scan
timeout, the scanner subprocess behaviour, and the ambient region. -/
structure PipelineEnv where
  credsResult : Except PyErr Creds
  detailsOf : String → Except PyErr LambdaDetails
  parseJson : String → Option PyVal
  scanTimeout : Nat
  proc : ProcBehavior
  ambientRegion : Option String

/-- An HTTP-style handler response; the body is kept as its dictionary. -/
structure Response where
  statusCode : Nat
  body : List (String × PyVal)

/-- The primary scan pipeline of `lambda_handler` (lines 276-319): resolve
the target, fetch credentials, fetch metadata, compute the region, run the
scanner.  The first failure propagates as the raised exception. -/
def scanPipeline (env : PipelineEnv) (event : PyVal) :
    Except PyErr (String × LambdaDetails × ScanRecord) := do
  let function_arn ← resolveTarget event
  let _creds ← env.credsResult
  let ld ← env.detailsOf function_arn
  let _aws_region := awsRegionOf event env.ambientRegion
  let sr ← runQscannerOn env.parseJson env.scanTimeout env.proc
  pure (function_arn, ld, sr)

/-- The failure responses of `lambda_handler` (lines 334-352):
`ScanException` maps to a 500 "Scan failed" response, any other exception
to a 500 "Internal error" response. -/
def errResponse : PyErr → Response
  | .scanException m => ⟨500, [("message", .str "Scan failed"), ("error", .str m)]⟩
  | .valueError m => ⟨500, [("message", .str "Internal error"), ("error", .str m)]⟩
  | .otherError m => ⟨500, [("message", .str "Internal error"), ("error", .str m)]⟩

/-- `lambda_handler` (lines 260-352): run the pipeline, store the results
best-effort, and return the response; all raised exceptions are caught and
mapped by `errResponse`.  Returns the response together with the sink
effects. -/
def lambdaHandler (env : PipelineEnv) (sink : SinkEnv) (timestamp : String)
    (event : PyVal) : Response × SinkEffects :=
  match scanPipeline env event with
  | .ok (function_arn, ld, sr) =>
    let effects := storeResults sink timestamp ld sr
    (⟨200, [("message", .str "Scan completed successfully"),
            ("function_arn", .str function_arn),
            ("package_type", .str ld.package_type),
            ("scan_success", .bool sr.success)]⟩, effects)
  | .error e => (errResponse e, ⟨[], []⟩)

/-- Modelled from the spec: the `CacheRecord` entity of §3 for the Scan
Cache, a component described by the spec but absent from
`src/scanner-lambda/lambda_function.py` (the handler under `src/` never
consults a cache). -/
structure CacheRecord where
  resource_id : String
  content_hash : String
  scan_timestamp : Nat
  scan_success : Bool
  expiry : Nat

/-- Modelled from the spec: the cache store as seen by one invocation —
whether cache storage is configured, the record the lookup would return for
this resource id, whether the lookup raises (a storage error, treated as a
miss), the current time and the TTL window (§4.4, §6). -/
structure CacheEnv where
  configured : Bool
  record : Option CacheRecord
  lookupRaises : Bool
  now : Nat
  ttl : Nat

/-- Modelled from the spec: `check(resource_id, content_hash)` of the Scan
Cache (§4.4): false when storage is unconfigured or the hash is
empty/absent; a failed or empty lookup is a miss; a hash mismatch or an
elapsed TTL window is a miss; otherwise a hit. -/
def cacheCheck (cache : CacheEnv) (content_hash : Option String) : Bool :=
  if !cache.configured then false
  else match content_hash with
    | Option.none => false
    | some h =>
      if h == "" then false
      else if cache.lookupRaises then false
      else match cache.record with
        | Option.none => false
        | some r =>
          if r.content_hash != h then false
          else if cache.now > r.scan_timestamp + cache.ttl then false
          else true

/-- Modelled from the spec: the cache-bearing orchestrator variant of §4.7
(`ResolveTarget → FetchCredentials → FetchMetadata → CacheHit short-circuit
→ Invoke → UpdateCache+Store → Success`), whose source is not under `src/`;
the current metadata's content hash is the `code_sha256` field.  Returns
the response together with whether the scanner binary was invoked. -/
def handlerWithCache (env : PipelineEnv) (cache : CacheEnv) (sink : SinkEnv)
    (timestamp : String) (event : PyVal) : Response × Bool :=
  match resolveTarget event with
  | .error e => (errResponse e, false)
  | .ok function_arn =>
    match env.credsResult with
    | .error e => (errResponse e, false)
    | .ok _creds =>
      match env.detailsOf function_arn with
      | .error e => (errResponse e, false)
      | .ok ld =>
        if cacheCheck cache ld.code_sha256 then
          (⟨200, [("message", .str "Scan skipped: recent scan found in cache"),
                  ("function_arn", .str function_arn),
                  ("scan_skipped", .bool true)]⟩, false)
        else
          match runQscannerOn env.parseJson env.scanTimeout env.proc with
          | .error e => (errResponse e, true)
          | .ok sr =>
            let _effects := storeResults sink timestamp ld sr
            (⟨200, [("message", .str "Scan completed successfully"),
                    ("function_arn", .str function_arn),
                    ("package_type", .str ld.package_type),
                    ("scan_success", .bool sr.success)]⟩, true)

/-! Shared helper lemmas. -/

/-- A string with a non-empty left part is non-empty. -/
lemma append_ne_empty_left (s t : String) (hs : s ≠ "") : s ++ t ≠ "" := by
  intro h
  apply hs
  have hd := congrArg String.data h
  rw [String.data_append] at hd
  rcases List.append_eq_nil.mp hd with ⟨h1, h2⟩
  exact String.ext h1

/-- A string with a non-empty right part is non-empty. -/
lemma append_ne_empty_right (s t : String) (ht : t ≠ "") : s ++ t ≠ "" := by
  intro h
  apply ht
  have hd := congrArg String.data h
  rw [String.data_append] at hd
  rcases List.append_eq_nil.mp hd with ⟨h1, h2⟩
  exact String.ext h2

/-- Every scan record `run_qscanner` returns has `success = true`: every
failing outcome raises instead of returning. -/
lemma runQscanner_ok_success (parseJson : String → Option PyVal) (t : Nat)
    (o : ProcOutcome) (sr : ScanRecord) (h : runQscanner parseJson t o = .ok sr) :
    sr.success = true := by
  cases o with
  | raised m => exact Except.noConfusion h
  | timedOut => exact Except.noConfusion h
  | completed r =>
    unfold runQscanner at h
    by_cases hrc : r.returncode = 0
    · simp [hrc] at h
      rw [← h]
    · simp [hrc] at h

/-- A successful pipeline's scan record is the one the scanner invoker
returned. -/
lemma scanPipeline_ok_scan (env : PipelineEnv) (event : PyVal)
    (arn : String) (ld : LambdaDetails) (sr : ScanRecord)
    (h : scanPipeline env event = .ok (arn, ld, sr)) :
    runQscannerOn env.parseJson env.scanTimeout env.proc = .ok sr := by
  unfold scanPipeline at h
  cases hr : resolveTarget event with
  | error e => simp [hr, bind, Except.bind] at h
  | ok a =>
    cases hc : env.credsResult with
    | error e => simp [hr, hc, bind, Except.bind] at h
    | ok c =>
      cases hl : env.detailsOf a with
      | error e => simp [hr, hc, hl, bind, Except.bind] at h
      | ok l =>
        cases hs : runQscannerOn env.parseJson env.scanTimeout env.proc with
        | error e => simp [hr, hc, hl, hs, bind, Except.bind] at h
        | ok s =>
          simp [hr, hc, hl, hs, bind, Except.bind, pure, Except.pure] at h
          rw [h.2.2]

/-! Concrete fixtures used by the witness and counterexample theorems. -/

/-- A `json.loads` oracle on which no string parses. -/
def parseNone : String → Option PyVal := fun _ => Option.none

/-- Event of the spec's concrete resolver example: only
`requestParameters.functionName`, a top-level account and a region. -/
def evC7 : PyVal :=
  .obj [("detail", .obj [("requestParameters", .obj [("functionName", .str "f")])]),
        ("account", .str "123"),
        ("region", .str "us-west-2")]

/-- The same event with the top-level region absent. -/
def evC7NoRegion : PyVal :=
  .obj [("detail", .obj [("requestParameters", .obj [("functionName", .str "f")])]),
        ("account", .str "123")]

/-- Event whose `detail.responseElements` is a non-empty object without a
`functionArn`, while `requestParameters.functionName` is present. -/
def evC3cex : PyVal :=
  .obj [("detail", .obj [
          ("responseElements", .obj [("memorySize", .int 128)]),
          ("requestParameters", .obj [("functionName", .str "f")])]),
        ("account", .str "123"),
        ("region", .str "us-west-2")]

/-- Event carrying a direct `responseElements.functionArn`. -/
def evDirectArn : PyVal :=
  .obj [("detail", .obj [("responseElements",
    .obj [("functionArn", .str "arn:aws:lambda:us-east-1:123:function:g")])])]

/-- Sample validated credentials. -/
def credsEx : Creds := ⟨"pod", "tok", Option.none, Option.none, Option.none⟩

/-- Sample function metadata. -/
def ldEx : LambdaDetails :=
  ⟨"fn", "arn:aws:lambda:us-east-1:123:function:fn", "python3.12", "Zip",
   some "sha256abc", Option.none, Option.none, Option.none, Option.none, Option.none⟩

/-- A scan record whose structured results are a dict without a
`vulnerabilities` field. -/
def srNoVulns : ScanRecord := ⟨true, 0, .obj [("summary", .str "ok")], "x", ""⟩

/-- A scan record whose structured results carry a `vulnerabilities`
field. -/
def srVulns : ScanRecord :=
  ⟨true, 0, .obj [("vulnerabilities", .obj [("high", .int 2)])], "x", ""⟩

/-- A sink environment with only the notification topic configured and no
sink failure. -/
def sinkSns : SinkEnv := ⟨Option.none, some "topic", false, false⟩

/-- A sink environment with nothing configured. -/
def sink0 : SinkEnv := ⟨Option.none, Option.none, false, false⟩

/-- A pipeline environment in which every collaborator succeeds and the
scanner exits 0 in one second with empty output. -/
def env200 : PipelineEnv :=
  ⟨.ok credsEx, fun _ => .ok ldEx, parseNone, 300, ⟨1, 0, "", "", Option.none⟩, Option.none⟩

/-- A cache record matching `ldEx`'s content hash, scanned at time 100. -/
def cacheRecEx : CacheRecord :=
  ⟨"arn:aws:lambda:us-east-1:123:function:g", "sha256abc", 100, true, 2692000⟩

/-- A cache environment in which the lookup for the target returns
`cacheRecEx`, at time 200 with a 30-day TTL. -/
def cacheHitEnv : CacheEnv := ⟨true, some cacheRecEx, false, 200, 2592000⟩

/-! The claim theorems. -/

/-- C1: in the cache-bearing orchestrator variant modelled from the spec,
whenever the scan cache check returns a hit — a prior record exists for the
resource whose content hash equals the current metadata's (non-empty) hash
and whose age is within the TTL, with the cache configured and the lookup
not failing — the scanner binary is never invoked and the handler returns a
status-200 response indicating the scan was skipped. -/
theorem cache_hit_short_circuits_scan
    (env : PipelineEnv) (cache : CacheEnv) (sink : SinkEnv) (ts : String) (event : PyVal)
    (arn : String) (c : Creds) (ld : LambdaDetails) (r : CacheRecord) (h : String)
    (hres : resolveTarget event = .ok arn)
    (hcreds : env.credsResult = .ok c)
    (hld : env.detailsOf arn = .ok ld)
    (hconf : cache.configured = true)
    (hlook : cache.lookupRaises = false)
    (hrec : cache.record = some r)
    (hhash : ld.code_sha256 = some h)
    (hne : h ≠ "")
    (hmatch : r.content_hash = h)
    (hfresh : cache.now ≤ r.scan_timestamp + cache.ttl) :
    (handlerWithCache env cache sink ts event).snd = false ∧
    (handlerWithCache env cache sink ts event).fst.statusCode = 200 ∧
    (handlerWithCache env cache sink ts event).fst.body.lookup "message" =
      some (.str "Scan skipped: recent scan found in cache") := by
  have hhit : cacheCheck cache ld.code_sha256 = true := by
    unfold cacheCheck
    rw [hconf, hhash, hlook, hrec]
    simp [hmatch, hne, Nat.not_lt.mpr hfresh]
  unfold handlerWithCache
  simp [hres, hcreds, hld, hhit, List.lookup]

/-- C1 witness: a concrete cache hit skips the scan with a 200 skip
response. -/
theorem cache_hit_short_circuits_scan_witness :
    (handlerWithCache env200 cacheHitEnv sink0 "ts" evDirectArn).snd = false ∧
    (handlerWithCache env200 cacheHitEnv sink0 "ts" evDirectArn).fst.statusCode = 200 ∧
    (handlerWithCache env200 cacheHitEnv sink0 "ts" evDirectArn).fst.body.lookup "message" =
      some (.str "Scan skipped: recent scan found in cache") :=
  cache_hit_short_circuits_scan env200 cacheHitEnv sink0 "ts" evDirectArn
    "arn:aws:lambda:us-east-1:123:function:g" credsEx ldEx cacheRecEx "sha256abc"
    rfl rfl rfl rfl rfl rfl rfl (by decide) rfl (by decide)

/-- C2 counterexample: a published notification for a scan whose structured
results are a dict without a `vulnerabilities` field still carries a
`vulnerability_summary` field (the empty dict), refuting the claim that the
message then has no such field. -/
theorem sns_vuln_summary_counterexample :
    srNoVulns.results.hasKey "vulnerabilities" = false ∧
    ((storeResults sinkSns "2026-01-01T00:00:00" ldEx srNoVulns).snsPublishes.map
       fun p => p.message.lookup "vulnerability_summary") = [some (.obj [])] :=
  ⟨rfl, rfl⟩

/-- C2 amended: a published notification message carries
`vulnerability_summary` exactly when the scan's structured results are a
dict; its value is the dict's `vulnerabilities` field, defaulting to the
empty dict when that field is absent, and only a non-dict structured result
omits the field. -/
theorem sns_vuln_summary_iff_results_dict :
    (∀ (sink : SinkEnv) (ts : String) (ld : LambdaDetails) (sr : ScanRecord),
       sr.results.isObj = true →
       ∀ p ∈ (storeResults sink ts ld sr).snsPublishes,
         p.message.lookup "vulnerability_summary" =
           some (sr.results.getDefault "vulnerabilities" (.obj []))) ∧
    (∀ (sink : SinkEnv) (ts : String) (ld : LambdaDetails) (sr : ScanRecord),
       sr.results.isObj = false →
       ∀ p ∈ (storeResults sink ts ld sr).snsPublishes,
         p.message.lookup "vulnerability_summary" = Option.none) := by
  constructor
  · intro sink ts ld sr hobj p hp
    unfold storeResults at hp
    simp at hp
    by_cases h1 : optTruthy sink.snsTopicArn
    · by_cases h2 : sink.snsPublishRaises
      · simp [h1, h2] at hp
      · simp [h1, h2] at hp
        rw [hp]
        unfold snsMessageFor
        simp [ScanRecord.toPy, PyVal.hasKey, PyVal.index, PyVal.lookupKey, hobj, List.lookup]
    · simp [h1] at hp
  · intro sink ts ld sr hobj p hp
    unfold storeResults at hp
    simp at hp
    by_cases h1 : optTruthy sink.snsTopicArn
    · by_cases h2 : sink.snsPublishRaises
      · simp [h1, h2] at hp
      · simp [h1, h2] at hp
        rw [hp]
        unfold snsMessageFor
        simp [ScanRecord.toPy, PyVal.hasKey, PyVal.index, PyVal.lookupKey, hobj, List.lookup]
    · simp [h1] at hp

/-- C2 witness: for a concrete scan whose results dict has a
`vulnerabilities` field, the published message's `vulnerability_summary` is
that field. -/
theorem sns_vuln_summary_iff_results_dict_witness :
    (⟨"topic", "QScanner Results: fn", snsMessageFor ldEx srVulns "t0"⟩ : SnsPublish).message.lookup
        "vulnerability_summary" =
      some (srVulns.results.getDefault "vulnerabilities" (.obj [])) :=
  sns_vuln_summary_iff_results_dict.1 sinkSns "t0" ldEx srVulns rfl
    ⟨"topic", "QScanner Results: fn", snsMessageFor ldEx srVulns "t0"⟩
    (by
      rw [show (storeResults sinkSns "t0" ldEx srVulns).snsPublishes =
        [(⟨"topic", "QScanner Results: fn", snsMessageFor ldEx srVulns "t0"⟩ : SnsPublish)] from rfl]
      exact List.mem_singleton_self _)

/-- C3 counterexample: for an event whose `detail.responseElements` is a
non-empty object without `functionArn` while
`detail.requestParameters.functionName` is present, resolution does not
proceed to step 2: it fails with "Function ARN is empty" instead of
reconstructing the identifier. -/
theorem resolver_no_fallthrough_counterexample :
    resolveTarget evC3cex = .error (.valueError "Function ARN is empty") ∧
    resolveTarget evC3cex ≠ .ok "arn:aws:lambda:us-west-2:123:function:f" := by
  refine ⟨rfl, ?_⟩
  intro h
  rw [show resolveTarget evC3cex = .error (.valueError "Function ARN is empty") from rfl] at h
  exact Except.noConfusion h

/-- C3 amended: the resolver takes the direct-ARN branch whenever
`detail.responseElements` is present and truthy; in that branch a missing
or falsy `functionArn` fails with "Function ARN is empty" rather than
falling through; resolution proceeds to step 2 (reconstruction from
function name, account and region) only when `responseElements` is absent
or falsy and `requestParameters` is present with a truthy
`functionName`. -/
theorem resolver_direct_branch_behaviour :
    (∀ (ev detail re : PyVal),
       ev.lookupKey "detail" = some detail →
       detail.lookupKey "responseElements" = some re →
       re.truthy = true →
       re.isObj = true →
       (re.get "functionArn").truthy = false →
       resolveTarget ev = .error (.valueError "Function ARN is empty")) ∧
    (∀ (ev detail rp fn : PyVal),
       ev.lookupKey "detail" = some detail →
       (detail.hasKey "responseElements" && (detail.index "responseElements").truthy) = false →
       detail.lookupKey "requestParameters" = some rp →
       rp.lookupKey "functionName" = some fn →
       fn.truthy = true →
       resolveTarget ev = .ok ("arn:aws:lambda:"
         ++ pyStr (ev.getDefault "region" (.str "us-east-1")) ++ ":"
         ++ pyStr (ev.getDefault "account"
              ((detail.getDefault "userIdentity" (.obj [])).get "accountId"))
         ++ ":function:" ++ pyStr fn)) := by
  constructor
  · intro ev detail re hd hre htr _hobj hfa
    unfold resolveTarget
    simp [PyVal.hasKey, PyVal.index, hd, hre, htr, hfa]
  · intro ev detail rp fn hd hno hrp hfn htr
    have h1 : ev.hasKey "detail" = true := by simp [PyVal.hasKey, hd]
    have h2 : ev.index "detail" = detail := by simp [PyVal.index, hd]
    have h3 : detail.hasKey "requestParameters" = true := by simp [PyVal.hasKey, hrp]
    have h4 : (detail.index "requestParameters").get "functionName" = fn := by
      simp [PyVal.index, PyVal.get, PyVal.getDefault, hrp, hfn]
    have hne : ("arn:aws:lambda:"
        ++ pyStr (ev.getDefault "region" (.str "us-east-1")) ++ ":"
        ++ pyStr (ev.getDefault "account"
             ((detail.getDefault "userIdentity" (.obj [])).get "accountId"))
        ++ ":function:" ++ pyStr fn) ≠ "" := by
      apply append_ne_empty_left
      apply append_ne_empty_right
      decide
    unfold resolveTarget
    simp only [h1, h2, h3, h4, hno, htr, Bool.not_true, Bool.false_eq_true, if_false, if_true]
    simp [PyVal.truthy, hne]
    rfl

/-- C3 witness: the direct-branch failure at the concrete event `evC3cex`,
and the step-2 reconstruction at the concrete event `evC7`. -/
theorem resolver_direct_branch_behaviour_witness :
    resolveTarget evC3cex = .error (.valueError "Function ARN is empty") ∧
    resolveTarget evC7 = .ok ("arn:aws:lambda:"
      ++ pyStr (evC7.getDefault "region" (.str "us-east-1")) ++ ":"
      ++ pyStr (evC7.getDefault "account"
           (((evC7.index "detail").getDefault "userIdentity" (.obj [])).get "accountId"))
      ++ ":function:" ++ pyStr (.str "f")) :=
  ⟨resolver_direct_branch_behaviour.1 evC3cex (evC3cex.index "detail")
     (.obj [("memorySize", .int 128)]) rfl rfl rfl rfl rfl,
   resolver_direct_branch_behaviour.2 evC7 (evC7.index "detail")
     (.obj [("functionName", .str "f")]) (.str "f") rfl rfl rfl rfl rfl⟩

/-- C4: whenever the scanner subprocess would exceed the configured
wall-clock timeout, the invocation fails with the ScanException carrying
the timeout message and never produces a (partial) success result. -/
theorem scan_timeout_always_raises
    (parseJson : String → Option PyVal) (t : Nat) (p : ProcBehavior)
    (hspawn : p.spawnError = Option.none) (hdur : p.duration > t) :
    runQscannerOn parseJson t p =
      .error (.scanException ("Scan timeout after " ++ toString t ++ " seconds")) := by
  unfold runQscannerOn runProcess runQscanner
  rw [hspawn]
  simp [hdur]

/-- C4 witness: a subprocess running 301 seconds against the default
300-second timeout fails with the timeout ScanException. -/
theorem scan_timeout_always_raises_witness :
    301 > SCAN_TIMEOUT_DEFAULT ∧
    runQscannerOn parseNone SCAN_TIMEOUT_DEFAULT ⟨301, 0, "", "", Option.none⟩ =
      .error (.scanException "Scan timeout after 300 seconds") :=
  ⟨by decide,
   scan_timeout_always_raises parseNone SCAN_TIMEOUT_DEFAULT
     ⟨301, 0, "", "", Option.none⟩ rfl (by decide)⟩

/-- C5: whenever the scanner subprocess exits with a non-zero exit code,
the invocation fails with the ScanException whose message carries the
captured stderr, and no scan record is produced. -/
theorem nonzero_exit_raises_with_stderr
    (parseJson : String → Option PyVal) (t : Nat) (r : ProcResult)
    (h : r.returncode ≠ 0) :
    runQscanner parseJson t (.completed r) =
      .error (.scanException ("QScanner failed: " ++ r.stderr)) := by
  unfold runQscanner
  simp [h]

/-- C5 witness: exit code 2 with stderr "err" fails with the ScanException
carrying "err". -/
theorem nonzero_exit_raises_with_stderr_witness :
    (2 : Int) ≠ 0 ∧
    runQscanner parseNone 300 (.completed ⟨2, "out", "err"⟩) =
      .error (.scanException "QScanner failed: err") :=
  ⟨by decide, nonzero_exit_raises_with_stderr parseNone 300 ⟨2, "out", "err"⟩ (by decide)⟩

/-- C6 counterexample: a zero-exit invocation with empty stdout — a stdout
that does not parse as JSON — succeeds but stores empty structured results
with no `raw_output` field, refuting the claim that every unparseable
stdout is stored verbatim as `raw_output`. -/
theorem empty_stdout_no_raw_output_counterexample :
    parseNone "" = Option.none ∧
    runQscanner parseNone 300 (.completed ⟨0, "", "boom"⟩) =
      .ok ⟨true, 0, .obj [], "", "boom"⟩ ∧
    (PyVal.obj []).hasKey "raw_output" = false :=
  ⟨rfl, rfl, rfl⟩

/-- C6 amended: a zero-exit invocation whose non-empty stdout does not
parse as JSON succeeds (`success = true`) and stores the stdout verbatim as
`raw_output` alongside stderr; the parse failure is never surfaced as a
scan failure. -/
theorem unparsed_nonempty_stdout_raw_output
    (parseJson : String → Option PyVal) (t : Nat) (r : ProcResult)
    (hrc : r.returncode = 0) (hne : r.stdout ≠ "") (hp : parseJson r.stdout = Option.none) :
    runQscanner parseJson t (.completed r) =
      .ok ⟨true, 0, .obj [("raw_output", .str r.stdout), ("stderr", .str r.stderr)],
           r.stdout, r.stderr⟩ := by
  unfold runQscanner
  simp [hrc, hne, hp]

/-- C6 witness: zero exit with the unparseable stdout "notjson" succeeds
with `raw_output` populated. -/
theorem unparsed_nonempty_stdout_raw_output_witness :
    (0 : Int) = 0 ∧ "notjson" ≠ "" ∧ parseNone "notjson" = Option.none ∧
    runQscanner parseNone 300 (.completed ⟨0, "notjson", "w"⟩) =
      .ok ⟨true, 0, .obj [("raw_output", .str "notjson"), ("stderr", .str "w")],
           "notjson", "w"⟩ :=
  ⟨rfl, by decide, rfl,
   unparsed_nonempty_stdout_raw_output parseNone 300 ⟨0, "notjson", "w"⟩ rfl (by decide) rfl⟩

/-- C7: for an event with only `requestParameters.functionName = "f"`,
account "123" and region "us-west-2", the resolver returns
"arn:aws:lambda:us-west-2:123:function:f"; with the top-level region absent
the fixed default region "us-east-1" is used in its place. -/
theorem resolver_reconstructs_arn_concrete :
    resolveTarget evC7 = .ok "arn:aws:lambda:us-west-2:123:function:f" ∧
    resolveTarget evC7NoRegion = .ok "arn:aws:lambda:us-east-1:123:function:f" :=
  ⟨rfl, rfl⟩

/-- C8: the handler's response — status and body — is independent of the
result sink environment, in particular of whether the S3 write or the SNS
publish raises: sink failures are swallowed inside `store_results` and
never change the response. -/
theorem sink_failures_never_change_response
    (env : PipelineEnv) (sink sink2 : SinkEnv) (ts : String) (event : PyVal) :
    (lambdaHandler env sink ts event).fst = (lambdaHandler env sink2 ts event).fst := by
  unfold lambdaHandler
  cases scanPipeline env event with
  | ok v => rfl
  | error e => rfl

/-- C9: for every event and every collaborator outcome, the handler returns
a response whose status code is 200 or 500 and whose body carries a
`message` field; no exception propagates. -/
theorem handler_always_returns_status_response
    (env : PipelineEnv) (sink : SinkEnv) (ts : String) (event : PyVal) :
    ((lambdaHandler env sink ts event).fst.statusCode = 200 ∨
     (lambdaHandler env sink ts event).fst.statusCode = 500) ∧
    ((lambdaHandler env sink ts event).fst.body.lookup "message").isSome = true := by
  unfold lambdaHandler
  cases scanPipeline env event with
  | ok v => exact ⟨Or.inl rfl, rfl⟩
  | error e => cases e <;> exact ⟨Or.inr rfl, rfl⟩

/-- C10: the scanner invoker only ever returns a record with
`success = true` (every failing outcome raises instead of returning), and
whenever the handler returns status 200 the `scan_success` flag in the
response body is true. -/
theorem status_200_implies_scan_success :
    (∀ (parseJson : String → Option PyVal) (t : Nat) (o : ProcOutcome) (sr : ScanRecord),
       runQscanner parseJson t o = .ok sr → sr.success = true) ∧
    (∀ (env : PipelineEnv) (sink : SinkEnv) (ts : String) (event : PyVal),
       (lambdaHandler env sink ts event).fst.statusCode = 200 →
       (lambdaHandler env sink ts event).fst.body.lookup "scan_success" =
         some (.bool true)) := by
  constructor
  · exact runQscanner_ok_success
  · intro env sink ts event h200
    unfold lambdaHandler at h200 ⊢
    cases hsp : scanPipeline env event with
    | ok v =>
      obtain ⟨arn, ld, sr⟩ := v
      have hsr : runQscannerOn env.parseJson env.scanTimeout env.proc = .ok sr :=
        scanPipeline_ok_scan env event arn ld sr hsp
      have hsucc : sr.success = true :=
        runQscanner_ok_success env.parseJson env.scanTimeout _ sr hsr
      simp [List.lookup, hsucc]
    | error e =>
      rw [hsp] at h200
      cases e <;> simp [errResponse] at h200

/-- C10 witness: a concrete all-success invocation returns 200 with
`scan_success = true` in the body. -/
theorem status_200_implies_scan_success_witness :
    (lambdaHandler env200 sink0 "ts" evDirectArn).fst.statusCode = 200 ∧
    (lambdaHandler env200 sink0 "ts" evDirectArn).fst.body.lookup "scan_success" =
      some (.bool true) :=
  ⟨rfl, status_200_implies_scan_success.2 env200 sink0 "ts" evDirectArn rfl⟩

end QualysLambda
